import Mathlib

/-!
Verification of the DSL engine (lexer, parser, evaluator) of the astro
repository, shallowly embedded from `src/dsl/lexer.py`, `src/dsl/parser.py`
and `src/dsl/evaluator.py`.

Modelling conventions:
* Python exceptions become `Except` errors.  Each `raise` site of the source
  becomes one constructor carrying exactly the data interpolated into the
  source message.  A Python `TypeError` escaping from a raw ordering operator
  (`left < right` on incomparable operands) is kept distinct from
  `EvaluatorError` (constructor `EvalExc.typeError`), mirroring the fact that
  the source does not catch it.
* Python numbers (the `int`/`float` results of `int(s)` / `float(s)` in the
  parser and the numeric chart fields) are modelled as `ℚ`; the DSL has no
  arithmetic, only comparisons of literals, for which exact rationals agree
  with Python's numeric comparison semantics on the decimal literals the
  grammar admits.
* Python dicts (chart sections) are association lists in insertion order with
  unique keys; `dict.get`/`in` become `List.lookup`.
* Recursion that is unbounded in Python (the lexer's scanning loop, the
  recursive-descent parser, the tree-walking evaluator) takes an explicit
  fuel argument; the fuel supplied by the top-level entry points
  (`tokenize`, `runParser`, `evaluate`) exceeds the recursion depth on every
  input, so the `outOfFuel` results model the host's stack limit and are
  never produced by the packaged entry points on inputs of interest.
* Character classes follow the source's `str.isalpha`/`isdigit`/`isspace`
  restricted to ASCII, which is the alphabet of the DSL.
-/

namespace AstroDsl

/-! ## Tokens (`src/dsl/lexer.py`, `TokenType` and `Token`) -/

inductive TokenType where
  | AND | OR | NOT
  | EQ | NEQ | LT | GT | LTE | GTE | IN
  | LPAREN | RPAREN | LBRACKET | RBRACKET | DOT | COMMA
  | PLANETS | ASPECTS | HOUSES
  | IDENTIFIER | NUMBER | STRING | BOOLEAN
  | EOF | UNKNOWN
deriving DecidableEq

structure Token where
  type : TokenType
  value : String
  line : Nat
  col : Nat
deriving DecidableEq

/-! ## Lexer errors (`LexerError` raise sites) -/

inductive LexError where
  /-- f-string "Неизвестная escape-последовательность" (none models the
  end-of-input case, where Python interpolates `None`). -/
  | unknownEscape (c : Option Char) (line col : Nat)
  /-- Message "Незакрытая строка (ожидается {quote})" -/
  | unterminatedString (quote : Char) (line col : Nat)
  /-- Message "Неизвестный символ: {c}" -/
  | unknownChar (c : Char) (line col : Nat)
  /-- fuel artefact, see the module docstring -/
  | outOfFuel
deriving DecidableEq

/-! ## Character classes used by `Lexer.tokenize` -/

/-- Embeds `str.isspace` restricted to ASCII. -/
def lexIsSpace (c : Char) : Bool :=
  c == ' ' || c == '\t' || c == '\n' || c == '\r' || c == '\x0b' || c == '\x0c'

/-- First character of an identifier: `isalpha() or == "_"`. -/
def isIdentStart (c : Char) : Bool :=
  c.isAlpha || c == '_'

/-- Continuation character of an identifier: `isalnum() or == "_"`. -/
def isIdentChar (c : Char) : Bool :=
  c.isAlphanum || c == '_'

/-- Embeds `Lexer.KEYWORDS.get(value, TokenType.IDENTIFIER)` -/
def keywordLookup (s : String) : TokenType :=
  if s = "AND" then .AND
  else if s = "OR" then .OR
  else if s = "NOT" then .NOT
  else if s = "IN" then .IN
  else if s = "planets" then .PLANETS
  else if s = "aspects" then .ASPECTS
  else if s = "houses" then .HOUSES
  else if s = "True" then .BOOLEAN
  else if s = "False" then .BOOLEAN
  else .IDENTIFIER

/-- Embeds `Lexer.TWO_CHAR_OPS` -/
def twoCharType (a b : Char) : Option TokenType :=
  if a = '=' ∧ b = '=' then some .EQ
  else if a = '!' ∧ b = '=' then some .NEQ
  else if a = '<' ∧ b = '=' then some .LTE
  else if a = '>' ∧ b = '=' then some .GTE
  else if a = '&' ∧ b = '&' then some .AND
  else if a = '|' ∧ b = '|' then some .OR
  else none

/-- Embeds `Lexer.SINGLE_CHAR_TOKENS` -/
def singleCharType (c : Char) : Option TokenType :=
  if c = '<' then some .LT
  else if c = '>' then some .GT
  else if c = '!' then some .NOT
  else if c = '(' then some .LPAREN
  else if c = ')' then some .RPAREN
  else if c = '[' then some .LBRACKET
  else if c = ']' then some .RBRACKET
  else if c = '.' then some .DOT
  else if c = ',' then some .COMMA
  else none

/-- Embeds `Lexer.read_number`: digits, then a fractional part only when a digit
follows the dot.  Returns the scanned text and the remaining characters. -/
def readNumberChars (l : List Char) : List Char × List Char :=
  let d1 := l.takeWhile Char.isDigit
  let r1 := l.dropWhile Char.isDigit
  match r1 with
  | '.' :: c2 :: r2 =>
    if c2.isDigit then
      (d1 ++ '.' :: (c2 :: r2).takeWhile Char.isDigit,
       (c2 :: r2).dropWhile Char.isDigit)
    else (d1, r1)
  | _ => (d1, r1)

/-- Embeds `Lexer.read_string` after the opening quote has been consumed: returns the
unescaped value, remaining input and updated line/column.  The column passed
in is the position just after the opening quote. -/
def readStringChars (quote : Char) :
    List Char → Nat → Nat → Except LexError (List Char × List Char × Nat × Nat)
  | [], line, col => .error (.unterminatedString quote line col)
  | c :: cs, line, col =>
    if c = quote then .ok ([], cs, line, col + 1)
    else if c = '\\' then
      match cs with
      | [] => .error (.unknownEscape none line (col + 1))
      | e :: cs2 =>
        if e = '\\' ∨ e = quote ∨ e = 'n' ∨ e = 't' then
          let mapped := if e = '\\' then '\\'
            else if e = 'n' then '\n'
            else if e = 't' then '\t'
            else e
          match readStringChars quote cs2 line (col + 2) with
          | .error er => .error er
          | .ok (v, rest, l2, c2) => .ok (mapped :: v, rest, l2, c2)
        else .error (.unknownEscape (some e) line (col + 1))
    else
      match readStringChars quote cs
              (if c = '\n' then line + 1 else line)
              (if c = '\n' then 0 else col + 1) with
      | .error er => .error er
      | .ok (v, rest, l2, c2) => .ok (c :: v, rest, l2, c2)

/-- The scanning loop of `Lexer.tokenize`.  One fuel unit per loop iteration;
every iteration consumes at least one character, so `length + 1` fuel always
suffices (see `tokenize`). -/
def lexLoop : Nat → List Char → Nat → Nat → Except LexError (List Token)
  | 0, _, _, _ => .error .outOfFuel
  | _ + 1, [], line, col => .ok [⟨.EOF, "", line, col⟩]
  | fuel + 1, c :: cs, line, col =>
    if lexIsSpace c then
      if c = '\n' then lexLoop fuel cs (line + 1) 0
      else lexLoop fuel cs line (col + 1)
    else if c == '#' then
      -- skip_comment: consume '#' and everything up to the newline, then one
      -- more advance (over the newline, or past the end of input).
      let body := cs.takeWhile (fun x => !(x == '\n'))
      match cs.dropWhile (fun x => !(x == '\n')) with
      | '\n' :: r => lexLoop fuel r (line + 1) 0
      | _ => lexLoop fuel [] line (col + 1 + body.length + 1)
    else if c.isDigit then
      let (numStr, rest) := readNumberChars (c :: cs)
      (lexLoop fuel rest line (col + numStr.length)).map
        (⟨.NUMBER, ⟨numStr⟩, line, col⟩ :: ·)
    else if c == '"' ∨ c == '\'' then
      match readStringChars c cs line (col + 1) with
      | .error e => .error e
      | .ok (val, rest, line2, col2) =>
        (lexLoop fuel rest line2 col2).map (⟨.STRING, ⟨val⟩, line2, col⟩ :: ·)
    else if isIdentStart c then
      let v := (c :: cs).takeWhile isIdentChar
      let rest := (c :: cs).dropWhile isIdentChar
      (lexLoop fuel rest line (col + v.length)).map
        (⟨keywordLookup ⟨v⟩, ⟨v⟩, line, col⟩ :: ·)
    else
      match cs with
      | c2 :: cs2 =>
        match twoCharType c c2 with
        | some tt =>
          (lexLoop fuel cs2 line (col + 2)).map (⟨tt, ⟨[c, c2]⟩, line, col⟩ :: ·)
        | none =>
          match singleCharType c with
          | some tt => (lexLoop fuel cs line (col + 1)).map (⟨tt, ⟨[c]⟩, line, col⟩ :: ·)
          | none => .error (.unknownChar c line col)
      | [] =>
        match singleCharType c with
        | some tt => (lexLoop fuel cs line (col + 1)).map (⟨tt, ⟨[c]⟩, line, col⟩ :: ·)
        | none => .error (.unknownChar c line col)

/-- Embeds `tokenize(formula)`: scan the whole string, ending in exactly one EOF
token.  Lines start at 1 and columns at 0, as in the source. -/
def tokenize (s : String) : Except LexError (List Token) :=
  lexLoop (s.length + 1) s.data 1 0

/-! ## AST (`src/dsl/parser.py`, `NodeType` and `ASTNode`)

The source uses one dataclass with a `NodeType` tag and many optional fields;
here each node kind is a constructor carrying exactly the fields the source
populates for it.  Binary/unary/comparison operators keep the raw token text
(`"AND"`/`"&&"` etc.), since the evaluator dispatches on that text. -/

inductive ASTNode where
  | binaryOp (op : String) (left right : ASTNode)
  | unaryOp (op : String) (operand : ASTNode)
  | comparison (op : String) (left right : ASTNode)
  | property (object : ASTNode) (prop : String)
  | aggregator (src : String) (prop : String)
  | ident (value : String)
  | number (value : ℚ)
  | string (value : String)
  | boolean (value : Bool)
  | list (children : List ASTNode)

/-! ## Parser errors (`ParserError` raise sites) -/

inductive ParserError where
  /-- Message "Пустая формула" (empty formula), raised before parsing begins -/
  | emptyFormula
  /-- Message "Неожиданный токен: {value}", with the offending token -/
  | unexpectedToken (t : Token)
  /-- Embeds `_expect`: "Ожидался {expected}, получен {current or EOF}" -/
  | expectedToken (expected : TokenType) (got : Option Token)
  /-- Message "Неожиданный конец формулы" (`_parse_primary` with no current token) -/
  | unexpectedEnd
  /-- Message "Недопустимый элемент списка: {value}" -/
  | invalidListElement (t : Token)
  /-- Message "Неожиданный конец списка" -/
  | unexpectedEndOfList
  /-- fuel artefact, see the module docstring -/
  | outOfFuel
deriving DecidableEq

/-- Embeds `int(value_str) if "." not in value_str else float(value_str)`: the
numeric value of a NUMBER token's text, as an exact rational. -/
def digitsToNat (cs : List Char) : Nat :=
  cs.foldl (fun n c => n * 10 + (c.toNat - 48)) 0

def parseNumValue (s : String) : ℚ :=
  if s.data.contains '.' then
    let ip := s.data.takeWhile (fun c => !(c == '.'))
    let fp := (s.data.dropWhile (fun c => !(c == '.'))).drop 1
    mkRat (digitsToNat ip * 10 ^ fp.length + digitsToNat fp) (10 ^ fp.length)
  else (digitsToNat s.data : ℚ)

/-! ## Recursive-descent parser (`Parser`)

The parser state (`self.tokens`, `self.pos`, `self.current`) is modelled as
the list of not-yet-consumed tokens; `self.current` is its head and
`_advance` is `tail`.  `_parse_expression` recurses into itself only through
a parenthesised primary, which consumes the `(` token first, so the fuel
`length + 1` supplied by `runParser` always suffices; the loops (`while OR`,
`while AND`, `while COMMA`) take their own fuel `length + 1`, one unit per
iteration, each of which consumes at least one token. -/

abbrev PRes := Except ParserError (ASTNode × List Token)

/-- Embeds `_expect(token_type)` followed by `_advance()`. -/
def expectThen (tt : TokenType) (ts : List Token) :
    Except ParserError (Token × List Token) :=
  match ts with
  | t :: rest => if t.type = tt then .ok (t, rest) else .error (.expectedToken tt (some t))
  | [] => .error (.expectedToken tt none)

/-- Embeds `_parse_list_element` -/
def parseListElement (ts : List Token) : PRes :=
  match ts with
  | [] => .error .unexpectedEndOfList
  | t :: rest =>
    if t.type = .NUMBER then .ok (.number (parseNumValue t.value), rest)
    else if t.type = .STRING then .ok (.string t.value, rest)
    else if t.type = .BOOLEAN then .ok (.boolean (t.value = "True"), rest)
    else if t.type = .IDENTIFIER then .ok (.ident t.value, rest)
    else .error (.invalidListElement t)

/-- The `while COMMA` loop of `_parse_list`. -/
def parseListLoop : Nat → List ASTNode → List Token →
    Except ParserError (List ASTNode × List Token)
  | 0, _, _ => .error .outOfFuel
  | fuel + 1, acc, ts =>
    match ts with
    | t :: rest =>
      if t.type = .COMMA then
        match parseListElement rest with
        | .error e => .error e
        | .ok (el, ts2) => parseListLoop fuel (acc ++ [el]) ts2
      else .ok (acc, ts)
    | [] => .ok (acc, [])

/-- Embeds `_parse_list` after the opening bracket, non-empty case. -/
def parseListTail (ts1 : List Token) : PRes :=
  match parseListElement ts1 with
  | .error e => .error e
  | .ok (first, ts2) =>
    match parseListLoop (ts2.length + 1) [first] ts2 with
    | .error e => .error e
    | .ok (children, ts3) =>
      match expectThen .RBRACKET ts3 with
      | .error e => .error e
      | .ok (_, ts4) => .ok (.list children, ts4)

/-- Embeds `_parse_list` -/
def parseListNode (ts : List Token) : PRes :=
  match expectThen .LBRACKET ts with
  | .error e => .error e
  | .ok (_, ts1) =>
    match ts1 with
    | t :: rest => if t.type = .RBRACKET then .ok (.list [], rest) else parseListTail ts1
    | [] => parseListTail []

/-- Embeds `_parse_aggregator` (entered only when the current token is an
aggregator keyword, so the empty case is unreachable from `_parse_primary`).
-/
def parseAggregator (ts : List Token) : PRes :=
  match ts with
  | t :: rest =>
    match expectThen .DOT rest with
    | .error e => .error e
    | .ok (_, ts1) =>
      match expectThen .IDENTIFIER ts1 with
      | .error e => .error e
      | .ok (p, ts2) => .ok (.aggregator t.value p.value, ts2)
  | [] => .error .unexpectedEnd

/-- Embeds `_parse_identifier_or_property` -/
def parseIdentOrProperty (ts : List Token) : PRes :=
  match ts with
  | t :: d :: rest2 =>
    if d.type = .DOT then
      match expectThen .IDENTIFIER rest2 with
      | .error e => .error e
      | .ok (p, ts2) => .ok (.property (.ident t.value) p.value, ts2)
    else .ok (.ident t.value, d :: rest2)
  | [t] => .ok (.ident t.value, [])
  | [] => .error .unexpectedEnd

/-- Embeds `_parse_primary`; `pExpr` is `_parse_expression` (tied in
`parseExpression` below). -/
def parsePrimary (pExpr : List Token → PRes) (ts : List Token) : PRes :=
  match ts with
  | [] => .error .unexpectedEnd
  | t :: rest =>
    if t.type = .LPAREN then
      match pExpr rest with
      | .error e => .error e
      | .ok (e, ts1) =>
        match expectThen .RPAREN ts1 with
        | .error er => .error er
        | .ok (_, ts2) => .ok (e, ts2)
    else if t.type = .NUMBER then .ok (.number (parseNumValue t.value), rest)
    else if t.type = .STRING then .ok (.string t.value, rest)
    else if t.type = .BOOLEAN then .ok (.boolean (t.value = "True"), rest)
    else if t.type = .LBRACKET then parseListNode ts
    else if t.type = .PLANETS ∨ t.type = .ASPECTS ∨ t.type = .HOUSES then parseAggregator ts
    else if t.type = .IDENTIFIER then parseIdentOrProperty ts
    else .error (.unexpectedToken t)

def isComparisonOp (tt : TokenType) : Bool :=
  tt == .EQ || tt == .NEQ || tt == .LT || tt == .GT || tt == .LTE || tt == .GTE || tt == .IN

/-- Embeds `_parse_comparison` -/
def parseComparison (pExpr : List Token → PRes) (ts : List Token) : PRes :=
  match parsePrimary pExpr ts with
  | .error e => .error e
  | .ok (left, ts1) =>
    match ts1 with
    | t :: rest =>
      if isComparisonOp t.type then
        match parsePrimary pExpr rest with
        | .error e => .error e
        | .ok (right, ts2) => .ok (.comparison t.value left right, ts2)
      else .ok (left, ts1)
    | [] => .ok (left, ts1)

/-- Embeds `_parse_factor` (NOT recurses into itself after consuming the NOT
token, so this is structural in the token list). -/
def parseFactor (pExpr : List Token → PRes) : List Token → PRes
  | t :: rest =>
    if t.type = .NOT then
      match parseFactor pExpr rest with
      | .error e => .error e
      | .ok (operand, ts1) => .ok (.unaryOp t.value operand, ts1)
    else parseComparison pExpr (t :: rest)
  | [] => parseComparison pExpr []

/-- The `while AND` loop of `_parse_term`. -/
def parseTermLoop (pExpr : List Token → PRes) : Nat → ASTNode → List Token → PRes
  | 0, _, _ => .error .outOfFuel
  | fuel + 1, left, ts =>
    match ts with
    | t :: rest =>
      if t.type = .AND then
        match parseFactor pExpr rest with
        | .error e => .error e
        | .ok (right, ts1) => parseTermLoop pExpr fuel (.binaryOp t.value left right) ts1
      else .ok (left, ts)
    | [] => .ok (left, [])

/-- Embeds `_parse_term` -/
def parseTerm (pExpr : List Token → PRes) (ts : List Token) : PRes :=
  match parseFactor pExpr ts with
  | .error e => .error e
  | .ok (left, ts1) => parseTermLoop pExpr (ts1.length + 1) left ts1

/-- The `while OR` loop of `_parse_expression`. -/
def parseExprLoop (pExpr : List Token → PRes) : Nat → ASTNode → List Token → PRes
  | 0, _, _ => .error .outOfFuel
  | fuel + 1, left, ts =>
    match ts with
    | t :: rest =>
      if t.type = .OR then
        match parseTerm pExpr rest with
        | .error e => .error e
        | .ok (right, ts1) => parseExprLoop pExpr fuel (.binaryOp t.value left right) ts1
      else .ok (left, ts)
    | [] => .ok (left, [])

/-- Embeds `_parse_expression` -/
def parseExpression : Nat → List Token → PRes
  | 0, _ => .error .outOfFuel
  | fuel + 1, ts =>
    match parseTerm (parseExpression fuel) ts with
    | .error e => .error e
    | .ok (left, ts1) => parseExprLoop (parseExpression fuel) (ts1.length + 1) left ts1

/-- Embeds `Parser.parse`: the empty-formula checks, then one expression, then the
trailing-token check. -/
def runParser (ts : List Token) : Except ParserError ASTNode :=
  match ts with
  | [] => .error .emptyFormula
  | t :: rest =>
    if rest = [] ∧ t.type = .EOF then .error .emptyFormula
    else
      match parseExpression ((t :: rest).length + 1) (t :: rest) with
      | .error e => .error e
      | .ok (ast, remaining) =>
        match remaining with
        | [] => .ok ast
        | r :: _ => if r.type = .EOF then .ok ast else .error (.unexpectedToken r)

/-! ## Runtime values and Python operator semantics

Evaluation results and chart fields are Python values of the four kinds the
spec admits: bool, number (int/float, modelled as one exact numeric kind),
string, list. -/

inductive Value where
  | bool (b : Bool)
  | num (q : ℚ)
  | str (s : String)
  | list (vs : List Value)

def boolToQ (b : Bool) : ℚ := if b then 1 else 0

/-- Embeds `bool(x)` -/
def truthy : Value → Bool
  | .bool b => b
  | .num q => decide (q ≠ 0)
  | .str s => decide (s ≠ "")
  | .list vs => !vs.isEmpty

/-- The Python class name of a value, as interpolated into error messages
(`int`/`float` are collapsed into one numeric kind, cf. the module
docstring). -/
def kindName : Value → String
  | .bool _ => "bool"
  | .num _ => "number"
  | .str _ => "str"
  | .list _ => "list"

mutual

/-- Python `==` on values: bools compare numerically with numbers
(`True == 1`), numbers compare exactly, strings by content, lists first by
length then pointwise, and any other cross-kind pair is unequal. -/
def pyEq : Value → Value → Bool
  | .bool a, .bool b => a == b
  | .bool a, .num q => boolToQ a == q
  | .num q, .bool b => q == boolToQ b
  | .num p, .num q => p == q
  | .str s, .str t => s == t
  | .list as, .list bs => as.length == bs.length && pyEqList as bs
  | _, _ => false

/-- Pointwise `==` of two lists of equal length (the length guard is in
`pyEq`). -/
def pyEqList : List Value → List Value → Bool
  | a :: as, b :: bs => pyEq a b && pyEqList as bs
  | _, _ => true

end

mutual

/-- Python's ordering (`<`, `>`, `<=`, `>=`): defined on number/bool pairs
(numerically), string pairs (lexicographically by code point) and list pairs
(Python's sequence comparison: scan while elements are `==`, then compare
the first differing pair; prefixes sort first); every other pair raises
`TypeError`, modelled as `none`. -/
def pyCmp : Value → Value → Option Ordering
  | .num p, .num q => some (if p < q then .lt else if p = q then .eq else .gt)
  | .num p, .bool b => some (if p < boolToQ b then .lt else if p = boolToQ b then .eq else .gt)
  | .bool a, .num q => some (if boolToQ a < q then .lt else if boolToQ a = q then .eq else .gt)
  | .bool a, .bool b => some (if boolToQ a < boolToQ b then .lt else if boolToQ a = boolToQ b then .eq else .gt)
  | .str s, .str t => some (if s < t then .lt else if s = t then .eq else .gt)
  | .list as, .list bs => pyCmpList as bs
  | _, _ => none

def pyCmpList : List Value → List Value → Option Ordering
  | [], [] => some .eq
  | [], _ :: _ => some .lt
  | _ :: _, [] => some .gt
  | a :: as, b :: bs => if pyEq a b then pyCmpList as bs else pyCmp a b

end

/-- Embeds `int(s)` on a string: optional surrounding whitespace, optional sign,
then digits with single underscores allowed between digits; `none` is a
`ValueError`. -/
def isPyDigitRun : List Char → Bool
  | [] => true
  | c :: cs =>
    if c.isDigit then isPyDigitRun cs
    else if c = '_' then
      match cs with
      | d :: _ => d.isDigit && isPyDigitRun cs
      | [] => false
    else false

def pyIntOfString (s : String) : Option Int :=
  let cs := ((s.data.dropWhile lexIsSpace).reverse.dropWhile lexIsSpace).reverse
  let (neg, ds) :=
    match cs with
    | '-' :: r => (true, r)
    | '+' :: r => (false, r)
    | r => (false, r)
  match ds with
  | [] => none
  | c :: _ =>
    if c.isDigit && isPyDigitRun ds then
      let n := digitsToNat (ds.filter (fun x => !(x == '_')))
      some (if neg then -(n : Int) else (n : Int))
    else none

/-! ## Chart data

`chart_data` is a dict with optional keys `planets` (dict of per-planet
dicts), `houses` (dict keyed by ints) and `aspects` (a list of dicts).
Python dicts preserve insertion order and have unique keys; they are
modelled as association lists. -/

structure ChartData where
  planets : Option (List (String × List (String × Value))) := none
  houses : Option (List (Int × List (String × Value))) := none
  aspects : Option (List (List (String × Value))) := none

/-- Embeds `list(self.chart_data.get('planets', {}).keys())` -/
def planetNames (chart : ChartData) : List String :=
  (chart.planets.getD []).map Prod.fst

/-! ## Evaluator errors

One constructor per `raise EvaluatorError` site of `src/dsl/evaluator.py`,
carrying the data interpolated into that site's message. -/

inductive EvalError where
  /-- Message "Имя объекта должно быть строкой, получен: {type}" -/
  | objectNameNotString (kind : String)
  /-- Message "Свойство '{p}' не найдено у планеты '{x}'. Доступные свойства: {keys}" -/
  | planetPropertyNotFound (prop planet : String) (available : List String)
  /-- Message "Свойство '{p}' не найдено у дома {n}" -/
  | housePropertyNotFound (prop : String) (house : Int)
  /-- Message "Объект '{x}' не найден в данных карты. Доступные планеты: {keys}" -/
  | objectNotFound (object : String) (knownPlanets : List String)
  /-- Message "Оператор IN требует список справа, получен: {type}" -/
  | inRequiresList (kind : String)
  /-- Message "Неизвестный бинарный оператор: {op}" -/
  | unknownBinaryOp (op : String)
  /-- Message "Неизвестный унарный оператор: {op}" -/
  | unknownUnaryOp (op : String)
  /-- Message "Неизвестный оператор сравнения: {op}" -/
  | unknownComparisonOp (op : String)
  /-- Message "Данные планет отсутствуют в карте" -/
  | planetsDataMissing
  /-- Message "Данные домов отсутствуют в карте" -/
  | housesDataMissing
  /-- Message "Данные аспектов отсутствуют в карте" -/
  | aspectsDataMissing
  /-- aggregator: "Свойство '{p}' не найдено у планеты '{x}'" -/
  | aggPlanetPropertyMissing (prop planet : String)
  /-- aggregator: "Свойство '{p}' не найдено у дома {n}" -/
  | aggHousePropertyMissing (prop : String) (house : Int)
  /-- aggregator: "Свойство '{p}' не найдено у аспекта" -/
  | aggAspectPropertyMissing (prop : String)
  /-- Message "Неизвестный агрегатор: {name}" -/
  | unknownAggregator (name : String)
deriving DecidableEq

/-- An exception escaping evaluation: either a raised `EvaluatorError`, or a
host `TypeError` from a raw ordering operator on incomparable operands
(which the source does not catch). -/
inductive EvalExc where
  | err (e : EvalError)
  | typeError
deriving DecidableEq

/-- Is the exception one of the DSL's own error kinds (an
`EvaluatorError`)? -/
def EvalExc.isEvaluatorError : EvalExc → Bool
  | .err _ => true
  | _ => false

/-! ## Evaluator (`Evaluator._eval_node` and friends) -/

/-- The final `raise` of `_eval_property`. -/
def evalObjectNotFound (chart : ChartData) (objName : String) : Except EvalExc Value :=
  .error (.err (.objectNotFound objName (planetNames chart)))

/-- The houses branch of `_eval_property` (reached when the object is not a
known planet): `int(obj_name)` inside `try`, falling through to the final
`raise` when the conversion fails or the house is absent. -/
def evalPropertyHouses (chart : ChartData) (objName prop : String) : Except EvalExc Value :=
  match chart.houses with
  | some hs =>
    match pyIntOfString objName with
    | some n =>
      match hs.lookup n with
      | some hd =>
        match hd.lookup prop with
        | some v => .ok v
        | none => .error (.err (.housePropertyNotFound prop n))
      | none => evalObjectNotFound chart objName
    | none => evalObjectNotFound chart objName
  | none => evalObjectNotFound chart objName

/-- The planets loop of `_eval_aggregator` (fail-fast on a missing
property). -/
def collectPlanetProps (prop : String) :
    List (String × List (String × Value)) → Except EvalExc (List Value)
  | [] => .ok []
  | (name, d) :: rest =>
    match d.lookup prop with
    | some v =>
      match collectPlanetProps prop rest with
      | .error e => .error e
      | .ok vs => .ok (v :: vs)
    | none => .error (.err (.aggPlanetPropertyMissing prop name))

/-- The houses loop of `_eval_aggregator`. -/
def collectHouseProps (prop : String) :
    List (Int × List (String × Value)) → Except EvalExc (List Value)
  | [] => .ok []
  | (n, d) :: rest =>
    match d.lookup prop with
    | some v =>
      match collectHouseProps prop rest with
      | .error e => .error e
      | .ok vs => .ok (v :: vs)
    | none => .error (.err (.aggHousePropertyMissing prop n))

/-- The aspects loop of `_eval_aggregator`. -/
def collectAspectProps (prop : String) :
    List (List (String × Value)) → Except EvalExc (List Value)
  | [] => .ok []
  | d :: rest =>
    match d.lookup prop with
    | some v =>
      match collectAspectProps prop rest with
      | .error e => .error e
      | .ok vs => .ok (v :: vs)
    | none => .error (.err (.aggAspectPropertyMissing prop))

/-- Ordering comparison dispatch: Python's raw `<`,`>`,`<=`,`>=`; an
incomparable pair raises `TypeError`. -/
def ordResult (pick : Ordering → Bool) (lv rv : Value) : Except EvalExc Value :=
  match pyCmp lv rv with
  | some o => .ok (.bool (pick o))
  | none => .error .typeError

mutual

/-- Embeds `Evaluator._eval_node`: the dispatcher and all `_eval_*` methods of the
tree-walking interpreter, one constructor case per `NodeType`. -/
def evalNode (chart : ChartData) : ASTNode → Except EvalExc Value
  | .binaryOp op l r =>
    -- _eval_binary_op: both sides are evaluated before the operator is
    -- applied; there is no short-circuiting.
    match evalNode chart l with
    | .error e => .error e
    | .ok lv =>
      match evalNode chart r with
      | .error e => .error e
      | .ok rv =>
        if op = "AND" ∨ op = "&&" then .ok (.bool (truthy lv && truthy rv))
        else if op = "OR" ∨ op = "||" then .ok (.bool (truthy lv || truthy rv))
        else .error (.err (.unknownBinaryOp op))
  | .unaryOp op o =>
    match evalNode chart o with
    | .error e => .error e
    | .ok v =>
      if op = "NOT" ∨ op = "!" then .ok (.bool (!truthy v))
      else .error (.err (.unknownUnaryOp op))
  | .comparison op l r =>
    match evalNode chart l with
    | .error e => .error e
    | .ok lv =>
      match evalNode chart r with
      | .error e => .error e
      | .ok rv =>
        if op = "==" then .ok (.bool (pyEq lv rv))
        else if op = "!=" then .ok (.bool (!pyEq lv rv))
        else if op = "<" then ordResult (fun o => o == .lt) lv rv
        else if op = ">" then ordResult (fun o => o == .gt) lv rv
        else if op = "<=" then ordResult (fun o => !(o == .gt)) lv rv
        else if op = ">=" then ordResult (fun o => !(o == .lt)) lv rv
        else if op = "IN" then
          match rv with
          | .list vs => .ok (.bool (vs.any (fun v => pyEq lv v)))
          | _ => .error (.err (.inRequiresList (kindName rv)))
        else .error (.err (.unknownComparisonOp op))
  | .property obj prop =>
    match evalNode chart obj with
    | .error e => .error e
    | .ok ov =>
      match ov with
      | .str objName =>
        match chart.planets with
        | some ps =>
          match ps.lookup objName with
          | some pd =>
            match pd.lookup prop with
            | some v => .ok v
            | none => .error (.err (.planetPropertyNotFound prop objName (pd.map Prod.fst)))
          | none => evalPropertyHouses chart objName prop
        | none => evalPropertyHouses chart objName prop
      | v => .error (.err (.objectNameNotString (kindName v)))
  | .aggregator src prop =>
    if src = "planets" then
      match chart.planets with
      | none => .error (.err .planetsDataMissing)
      | some ps =>
        match collectPlanetProps prop ps with
        | .error e => .error e
        | .ok vs => .ok (.list vs)
    else if src = "houses" then
      match chart.houses with
      | none => .error (.err .housesDataMissing)
      | some hs =>
        match collectHouseProps prop hs with
        | .error e => .error e
        | .ok vs => .ok (.list vs)
    else if src = "aspects" then
      match chart.aspects with
      | none => .error (.err .aspectsDataMissing)
      | some asps =>
        match collectAspectProps prop asps with
        | .error e => .error e
        | .ok vs => .ok (.list vs)
    else .error (.err (.unknownAggregator src))
  | .ident v => .ok (.str v)
  | .number q => .ok (.num q)
  | .string s => .ok (.str s)
  | .boolean b => .ok (.bool b)
  | .list ns =>
    match evalChildren chart ns with
    | .error e => .error e
    | .ok vs => .ok (.list vs)

/-- Embeds `_eval_list`: evaluate every child in order. -/
def evalChildren (chart : ChartData) : List ASTNode → Except EvalExc (List Value)
  | [] => .ok []
  | n :: ns =>
    match evalNode chart n with
    | .error e => .error e
    | .ok v =>
      match evalChildren chart ns with
      | .error e => .error e
      | .ok vs => .ok (v :: vs)

end

/-! ## The packaged pipeline (`parse` and `evaluate` convenience functions) -/

inductive DslError where
  | lexical (e : LexError)
  | parsing (e : ParserError)
  | evaluation (e : EvalExc)

/-- Embeds `parse(formula)`: tokenize then parse. -/
def parse (formula : String) : Except DslError ASTNode :=
  match tokenize formula with
  | .error e => .error (.lexical e)
  | .ok ts =>
    match runParser ts with
    | .error e => .error (.parsing e)
    | .ok ast => .ok ast

/-- Embeds `evaluate(formula, chart_data)`. -/
def evaluate (formula : String) (chart : ChartData) : Except DslError Value :=
  match parse formula with
  | .error e => .error e
  | .ok ast =>
    match evalNode chart ast with
    | .error e => .error (.evaluation e)
    | .ok v => .ok v

/-! ## Supporting definitions for the claims -/

/-- The identifier lexeme class `[A-Za-z_][A-Za-z0-9_]*` of the spec. -/
def isIdentName (s : String) : Bool :=
  match s.data with
  | [] => false
  | c :: cs => isIdentStart c && cs.all isIdentChar

/-- The nine keyword lexemes of `Lexer.KEYWORDS`. -/
def keywordStrings : List String :=
  ["AND", "OR", "NOT", "IN", "planets", "aspects", "houses", "True", "False"]

def chartC1 : ChartData :=
  { planets := some [("Sun", [("Retrograde", .bool false)])] }

def chartC4 : ChartData :=
  { planets := some [("Sun", [("Sign", .str "Aries")])] }

def chartC2 : ChartData :=
  { planets := some [("Sun", [("Sign", .str "Capricorn")])],
    houses := some [((1 : Int), [("Ruler", .str "Mars")])] }

def chartC5 : ChartData :=
  { planets := some [("Sun", [("Dignity", .str "Rulership")]),
                     ("Moon", [("Dignity", .str "Neutral")])] }

def chartC5bad : ChartData :=
  { planets := some [("Sun", [("Dignity", .str "Rulership")]),
                     ("Moon", [("House", .num 2)]),
                     ("Mars", [("Dignity", .str "Detriment")])] }

def chartC6 : ChartData :=
  { planets := some [("Sun", [("Retrograde", .bool false)]),
                     ("Moon", [("Retrograde", .bool true)])] }

/-! # Helper lemmas -/

theorem identStart_isIdentChar {c : Char} (h : isIdentStart c = true) :
    isIdentChar c = true := by
  simp only [isIdentStart, Bool.or_eq_true] at h
  rcases h with h | h
  · simp [isIdentChar, Char.isAlphanum, h]
  · simp [isIdentChar, Char.isAlphanum, h]

theorem identStart_ne {c : Char} (x : Char) (h : isIdentStart c = true)
    (hx : isIdentStart x = false) : (c == x) = false := by
  cases he : c == x
  · rfl
  · exact absurd h ((beq_iff_eq.mp he) ▸ hx ▸ (fun hh => Bool.false_ne_true (hx ▸ hh)))

theorem identStart_not_space {c : Char} (h : isIdentStart c = true) :
    lexIsSpace c = false := by
  simp only [lexIsSpace, Bool.or_eq_false_iff]
  refine ⟨⟨⟨⟨⟨?_, ?_⟩, ?_⟩, ?_⟩, ?_⟩, ?_⟩ <;> exact identStart_ne _ h (by decide)

theorem isAlpha_not_isDigit {c : Char} (h : c.isAlpha = true) : c.isDigit = false := by
  cases hd : c.isDigit
  · rfl
  · exfalso
    simp only [Char.isDigit, Bool.and_eq_true, decide_eq_true_eq, ge_iff_le] at hd
    simp only [Char.isAlpha, Char.isUpper, Char.isLower, Bool.or_eq_true,
      Bool.and_eq_true, decide_eq_true_eq, ge_iff_le] at h
    obtain ⟨hd1, hd2⟩ := hd
    have d1 := UInt32.le_toNat_of_le (m := 48) (by decide) hd1
    have d2 := UInt32.toNat_le_of_le (m := 57) (by decide) hd2
    rcases h with ⟨h1, h2⟩ | ⟨h1, h2⟩
    · have a1 := UInt32.le_toNat_of_le (m := 65) (by decide) h1
      have a2 := UInt32.toNat_le_of_le (m := 90) (by decide) h2
      omega
    · have a1 := UInt32.le_toNat_of_le (m := 97) (by decide) h1
      have a2 := UInt32.toNat_le_of_le (m := 122) (by decide) h2
      omega

theorem identStart_not_digit {c : Char} (h : isIdentStart c = true) :
    c.isDigit = false := by
  simp only [isIdentStart, Bool.or_eq_true, beq_iff_eq] at h
  rcases h with h | rfl
  · exact isAlpha_not_isDigit h
  · decide

/-- Embeds `takeWhile`/`dropWhile` on a block that wholly satisfies `p` followed by
a remainder whose first element does not. -/
theorem takeWhile_append_block {p : Char → Bool} {xs ys : List Char}
    (h1 : ∀ x ∈ xs, p x = true) (h2 : ∀ y ∈ ys.head?, p y = false) :
    (xs ++ ys).takeWhile p = xs ∧ (xs ++ ys).dropWhile p = ys := by
  induction xs with
  | nil =>
    cases ys with
    | nil => simp [List.takeWhile, List.dropWhile]
    | cons y ys' =>
      have hy := h2 y (by simp)
      simp [List.takeWhile, List.dropWhile, hy]
  | cons x xs' ih =>
    have hx := h1 x (by simp)
    have hih := ih (fun a ha => h1 a (by simp [ha]))
    simp [List.takeWhile, List.dropWhile, hx, hih.1, hih.2]

/-- Scanning one identifier at the head of the input. -/
theorem lexLoop_identifier (fuel line col : Nat) (c : Char) (cs r : List Char)
    (hst : isIdentStart c = true) (hcs : ∀ x ∈ cs, isIdentChar x = true)
    (hr : ∀ x ∈ r.head?, isIdentChar x = false) :
    lexLoop (fuel + 1) ((c :: cs) ++ r) line col =
      (lexLoop fuel r line (col + (c :: cs).length)).map
        (⟨keywordLookup ⟨c :: cs⟩, ⟨c :: cs⟩, line, col⟩ :: ·) := by
  have hall : ∀ x ∈ c :: cs, isIdentChar x = true := by
    intro x hx
    rcases List.mem_cons.mp hx with rfl | hx
    · exact identStart_isIdentChar hst
    · exact hcs x hx
  obtain ⟨ht, hd⟩ := takeWhile_append_block (p := isIdentChar) hall hr
  simp only [List.cons_append] at ht hd ⊢
  simp only [lexLoop, identStart_not_space hst, identStart_ne '#' hst (by decide),
    identStart_not_digit hst, identStart_ne '"' hst (by decide),
    identStart_ne '\'' hst (by decide), hst, ht, hd, Bool.false_eq_true, if_false,
    if_true, false_or, or_self, List.length_cons]

/-- Tokenizing a string that is exactly one identifier lexeme. -/
theorem tokenize_single_identifier (s : String) (h : isIdentName s = true) :
    tokenize s = .ok [⟨keywordLookup s, s, 1, 0⟩, ⟨.EOF, "", 1, s.length⟩] := by
  obtain ⟨c, cs, hdata⟩ : ∃ c cs, s.data = c :: cs := by
    rcases hd : s.data with _ | ⟨c, cs⟩
    · rw [isIdentName, hd] at h; exact absurd h (by decide)
    · exact ⟨c, cs, rfl⟩
  have hs : s = ⟨c :: cs⟩ := by rw [← hdata]
  subst hs
  rw [isIdentName] at h
  simp only [Bool.and_eq_true, List.all_eq_true] at h
  obtain ⟨hst, hall⟩ := h
  have hlen : (⟨c :: cs⟩ : String).length = cs.length + 1 := by
    simp [String.length]
  rw [tokenize, hlen]
  have hstep := lexLoop_identifier (cs.length + 1) 1 0 c cs []
    hst (fun x hx => hall x hx) (fun x hx => absurd hx (by simp))
  simp only [List.append_nil] at hstep
  rw [show (⟨c :: cs⟩ : String).data = c :: cs from rfl, hstep]
  simp [Except.map, hlen, lexLoop]

/-- Scanning the remainder `" IN []"` after an identifier. -/
theorem lexLoop_in_empty_suffix (k line col : Nat) :
    lexLoop (k + 6) [' ', 'I', 'N', ' ', '[', ']'] line col =
      .ok [⟨.IN, "IN", line, col + 1⟩, ⟨.LBRACKET, "[", line, col + 4⟩,
           ⟨.RBRACKET, "]", line, col + 5⟩, ⟨.EOF, "", line, col + 6⟩] := rfl

/-- Tokenizing `X ++ " IN []"` for an identifier lexeme `X`. -/
theorem tokenize_ident_in_empty (X : String) (h : isIdentName X = true) :
    tokenize (X ++ " IN []") = .ok [
      ⟨keywordLookup X, X, 1, 0⟩, ⟨.IN, "IN", 1, X.length + 1⟩,
      ⟨.LBRACKET, "[", 1, X.length + 4⟩, ⟨.RBRACKET, "]", 1, X.length + 5⟩,
      ⟨.EOF, "", 1, X.length + 6⟩] := by
  obtain ⟨c, cs, hdata⟩ : ∃ c cs, X.data = c :: cs := by
    rcases hd : X.data with _ | ⟨c, cs⟩
    · rw [isIdentName, hd] at h; exact absurd h (by decide)
    · exact ⟨c, cs, rfl⟩
  have hX : X = ⟨c :: cs⟩ := by rw [← hdata]
  subst hX
  rw [isIdentName] at h
  simp only [Bool.and_eq_true, List.all_eq_true] at h
  obtain ⟨hst, hall⟩ := h
  have hlen : (⟨c :: cs⟩ : String).length = cs.length + 1 := by simp [String.length]
  rw [tokenize]
  rw [show ((⟨c :: cs⟩ : String) ++ " IN []").data =
        (c :: cs) ++ [' ', 'I', 'N', ' ', '[', ']'] from rfl]
  rw [show ((⟨c :: cs⟩ : String) ++ " IN []").length + 1 = (cs.length + 7) + 1 by
    rw [String.length_append, hlen]
    show cs.length + 1 + 6 + 1 = cs.length + 7 + 1
    omega]
  rw [lexLoop_identifier (cs.length + 7) 1 0 c cs [' ', 'I', 'N', ' ', '[', ']']
    hst (fun x hx => hall x hx)
    (fun x hx => by
      simp only [List.head?, Option.mem_def, Option.some.injEq] at hx
      subst hx
      rfl)]
  rw [show cs.length + 7 = (cs.length + 1) + 6 by omega]
  rw [lexLoop_in_empty_suffix]
  simp [Except.map, hlen]

/-- When every planet entry has the property, the planets aggregator loop
returns the per-entry values in order. -/
theorem collectPlanetProps_all (P : String)
    (ps : List (String × List (String × Value)))
    (h : ∀ e ∈ ps, (e.2.lookup P).isSome = true) :
    collectPlanetProps P ps =
      .ok (ps.map fun e => (e.2.lookup P).getD (.bool false)) := by
  induction ps with
  | nil => rfl
  | cons e rest ih =>
    obtain ⟨name, d⟩ := e
    obtain ⟨v, hv⟩ := Option.isSome_iff_exists.mp (h (name, d) (by simp))
    simp [collectPlanetProps, hv, ih (fun x hx => h x (by simp [hx]))]

theorem collectHouseProps_all (P : String)
    (hs : List (Int × List (String × Value)))
    (h : ∀ e ∈ hs, (e.2.lookup P).isSome = true) :
    collectHouseProps P hs =
      .ok (hs.map fun e => (e.2.lookup P).getD (.bool false)) := by
  induction hs with
  | nil => rfl
  | cons e rest ih =>
    obtain ⟨n, d⟩ := e
    obtain ⟨v, hv⟩ := Option.isSome_iff_exists.mp (h (n, d) (by simp))
    simp [collectHouseProps, hv, ih (fun x hx => h x (by simp [hx]))]

theorem collectAspectProps_all (P : String)
    (asps : List (List (String × Value)))
    (h : ∀ e ∈ asps, (e.lookup P).isSome = true) :
    collectAspectProps P asps =
      .ok (asps.map fun e => (e.lookup P).getD (.bool false)) := by
  induction asps with
  | nil => rfl
  | cons d rest ih =>
    obtain ⟨v, hv⟩ := Option.isSome_iff_exists.mp (h d (by simp))
    simp [collectAspectProps, hv, ih (fun x hx => h x (by simp [hx]))]

/-- The planets aggregator loop raises at the first entry lacking the
property, regardless of what follows it. -/
theorem collectPlanetProps_failfast (P name : String)
    (pre post : List (String × List (String × Value)))
    (d : List (String × Value))
    (h : ∀ e ∈ pre, (e.2.lookup P).isSome = true) (hd : d.lookup P = none) :
    collectPlanetProps P (pre ++ (name, d) :: post) =
      .error (.err (.aggPlanetPropertyMissing P name)) := by
  induction pre with
  | nil => simp [collectPlanetProps, hd]
  | cons e rest ih =>
    obtain ⟨nm, dd⟩ := e
    obtain ⟨v, hv⟩ := Option.isSome_iff_exists.mp (h (nm, dd) (by simp))
    simp [collectPlanetProps, hv, ih (fun x hx => h x (by simp [hx]))]

/-! # Claims -/

/-! ## C1: AND/OR do not short-circuit -/

/-- C1: AND/OR do not short-circuit: for every chart and every pair of
subexpressions L, R, `BinaryOp(AND/OR, L, R)` evaluates both sides
unconditionally; in particular, whenever L evaluates to a value (e.g.
`False`) and R raises an `EvaluationError` `e`, the whole conjunction /
disjunction raises `e` rather than returning a boolean. -/
theorem binaryOp_no_short_circuit (chart : ChartData) (L R : ASTNode)
    (vL : Value) (e : EvalExc)
    (hL : evalNode chart L = .ok vL) (hR : evalNode chart R = .error e) :
    evalNode chart (.binaryOp "AND" L R) = .error e ∧
    evalNode chart (.binaryOp "OR" L R) = .error e := by
  constructor <;> simp only [evalNode, hL, hR]

/-- C1 witness: with `L = False` and `R = Chiron.Sign` on a chart without
Chiron, both `L AND R` and `L OR R` raise the unknown-object error. -/
theorem binaryOp_no_short_circuit_witness :
    evalNode chartC1 (.binaryOp "AND" (.boolean false) (.property (.ident "Chiron") "Sign")) =
      .error (.err (.objectNotFound "Chiron" ["Sun"])) ∧
    evalNode chartC1 (.binaryOp "OR" (.boolean false) (.property (.ident "Chiron") "Sign")) =
      .error (.err (.objectNotFound "Chiron" ["Sun"])) :=
  binaryOp_no_short_circuit chartC1 (.boolean false) (.property (.ident "Chiron") "Sign")
    (.bool false) (.err (.objectNotFound "Chiron" ["Sun"])) rfl rfl

/-! ## C9: Boolean/Number equality is numeric -/

/-- C9: `True == 1` and `False == 0` evaluate to `True` on every chart,
because `==` between a Bool and a Number is numeric (`True` behaves as 1,
`False` as 0) rather than kind-strict, while Number-versus-String equality
is always `False`. -/
theorem bool_number_equality_numeric :
    (∀ chart : ChartData, evaluate "True == 1" chart = .ok (.bool true)) ∧
    (∀ chart : ChartData, evaluate "False == 0" chart = .ok (.bool true)) ∧
    (∀ (b : Bool) (q : ℚ), (pyEq (.bool b) (.num q) = true ↔ boolToQ b = q)) ∧
    (∀ (q : ℚ) (s : String),
      pyEq (.num q) (.str s) = false ∧ pyEq (.str s) (.num q) = false) := by
  refine ⟨fun _ => rfl, fun _ => rfl, fun b q => ?_, fun q s => ⟨rfl, rfl⟩⟩
  simp [pyEq]

/-! ## C10: bare identifiers and string literals are interchangeable -/

/-- C10: evaluating an `Identifier` node with value `s` returns exactly the
string `s`, identical to evaluating a `String` node with value `s`; hence
`Sun.Sign == Capricorn` and `Sun.Sign == "Capricorn"` evaluate to the same
result (including errors) on every chart. -/
theorem identifier_string_interchangeable :
    (∀ (chart : ChartData) (s : String), evalNode chart (.ident s) = .ok (.str s)) ∧
    (∀ (chart : ChartData) (s : String),
      evalNode chart (.ident s) = evalNode chart (.string s)) ∧
    (∀ chart : ChartData,
      evaluate "Sun.Sign == Capricorn" chart = evaluate "Sun.Sign == \"Capricorn\"" chart) := by
  refine ⟨fun _ _ => rfl, fun _ _ => rfl, fun chart => ?_⟩
  rfl

/-! ## C3: IN semantics -/

/-- C3: `IN` requires the right side to evaluate to a `List`, otherwise an
`EvaluationError` ("IN requires a list") is raised; on a list the result is
`True` exactly when some element equals the left value under the same
equality `pyEq` that `==` uses; consequently `X IN []` evaluates to `False`
for every identifier `X` and every chart. -/
theorem in_operator_semantics :
    (∀ (chart : ChartData) (L R : ASTNode) (lv rv : Value),
      evalNode chart L = .ok lv → evalNode chart R = .ok rv →
      (∀ vs, rv ≠ .list vs) →
      evalNode chart (.comparison "IN" L R) =
        .error (.err (.inRequiresList (kindName rv)))) ∧
    (∀ (chart : ChartData) (L R : ASTNode) (lv : Value) (vs : List Value),
      evalNode chart L = .ok lv → evalNode chart R = .ok (.list vs) →
      evalNode chart (.comparison "IN" L R) =
        .ok (.bool (vs.any (fun v => pyEq lv v)))) ∧
    (∀ (chart : ChartData) (L R : ASTNode) (lv rv : Value),
      evalNode chart L = .ok lv → evalNode chart R = .ok rv →
      evalNode chart (.comparison "==" L R) = .ok (.bool (pyEq lv rv))) ∧
    (∀ (X : String) (chart : ChartData),
      isIdentName X = true → keywordLookup X = .IDENTIFIER →
      evaluate (X ++ " IN []") chart = .ok (.bool false)) := by
  refine ⟨?_, ?_, ?_, ?_⟩
  · intro chart L R lv rv hL hR hnl
    cases rv with
    | list vs => exact absurd rfl (hnl vs)
    | bool b => simp [evalNode, hL, hR]
    | num q => simp [evalNode, hL, hR]
    | str s => simp [evalNode, hL, hR]
  · intro chart L R lv vs hL hR
    simp [evalNode, hL, hR]
  · intro chart L R lv rv hL hR
    simp [evalNode, hL, hR]
  · intro X chart hname hkw
    have htok := tokenize_ident_in_empty X hname
    rw [hkw] at htok
    simp only [evaluate, parse, htok]
    rfl

/-- C3 witness: membership in the empty list is `False`, both at the node
level and for the formula `Mercury IN []`. -/
theorem in_operator_semantics_witness :
    evalNode chartC1 (.comparison "IN" (.string "x") (.list [])) = .ok (.bool false) ∧
    evaluate "Mercury IN []" chartC1 = .ok (.bool false) :=
  ⟨in_operator_semantics.2.1 chartC1 (.string "x") (.list []) (.str "x") [] rfl rfl,
   in_operator_semantics.2.2.2 "Mercury" chartC1 (by decide) rfl⟩

/-! ## C4 (corrected): ordering on incompatible kinds is a host TypeError -/

/-- C4 counterexample: the claim says an ordering comparison whose operands
the underlying ordering cannot compare fails with an `EvaluationError` (one
of the three DSL error kinds, never any other exception kind).  On the
concrete chart with `Sun.Sign = "Aries"`, `Sun.Sign < 1` instead escapes
with the host `TypeError`, which is not an `EvaluatorError`. -/
theorem ordering_incompatible_counterexample :
    evaluate "Sun.Sign < 1" chartC4 = .error (.evaluation .typeError) ∧
    EvalExc.isEvaluatorError .typeError = false := ⟨rfl, rfl⟩

/-- C4 (amended): an ordering comparison (`<`, `>`, `<=`, `>=`) whose
operand values the underlying ordering cannot compare (e.g. a String and a
Number) escapes with the host language's `TypeError`, which is not one of
the three DSL error kinds; when both sides are numbers the result is their
natural ordering. -/
theorem ordering_incompatible_typeerror (chart : ChartData) (L R : ASTNode) :
    (∀ lv rv : Value,
      evalNode chart L = .ok lv → evalNode chart R = .ok rv → pyCmp lv rv = none →
      evalNode chart (.comparison "<" L R) = .error .typeError ∧
      evalNode chart (.comparison ">" L R) = .error .typeError ∧
      evalNode chart (.comparison "<=" L R) = .error .typeError ∧
      evalNode chart (.comparison ">=" L R) = .error .typeError) ∧
    (∀ (s : String) (q : ℚ),
      pyCmp (.str s) (.num q) = none ∧ pyCmp (.num q) (.str s) = none) ∧
    EvalExc.isEvaluatorError .typeError = false ∧
    (∀ p q : ℚ,
      evalNode chart L = .ok (.num p) → evalNode chart R = .ok (.num q) →
      evalNode chart (.comparison "<" L R) = .ok (.bool (decide (p < q))) ∧
      evalNode chart (.comparison ">" L R) = .ok (.bool (decide (q < p))) ∧
      evalNode chart (.comparison "<=" L R) = .ok (.bool (decide (p ≤ q))) ∧
      evalNode chart (.comparison ">=" L R) = .ok (.bool (decide (q ≤ p)))) := by
  refine ⟨?_, fun s q => ⟨rfl, rfl⟩, rfl, ?_⟩
  · intro lv rv hL hR hcmp
    refine ⟨?_, ?_, ?_, ?_⟩ <;> simp [evalNode, hL, hR, ordResult, hcmp]
  · intro p q hL hR
    rcases lt_trichotomy p q with h | rfl | h
    · refine ⟨?_, ?_, ?_, ?_⟩ <;>
        · simp [evalNode, hL, hR, ordResult, pyCmp, h, asymm h, h.le, not_le.mpr h]
          rfl
    · refine ⟨?_, ?_, ?_, ?_⟩ <;>
        · simp [evalNode, hL, hR, ordResult, pyCmp, lt_irrefl]
          rfl
    · refine ⟨?_, ?_, ?_, ?_⟩ <;>
        · simp [evalNode, hL, hR, ordResult, pyCmp, h, asymm h, h.le, not_le.mpr h,
            (h.ne).symm, h.ne]
          rfl

/-- C4 witness for the amended claim: `"a" < 1` at the node level raises
the host `TypeError`, and `2 < 3` on numbers is `True`. -/
theorem ordering_incompatible_typeerror_witness :
    evalNode chartC4 (.comparison "<" (.string "a") (.number 1)) = .error .typeError ∧
    evalNode chartC4 (.comparison "<" (.number 2) (.number 3)) = .ok (.bool (decide ((2:ℚ) < 3))) :=
  ⟨(ordering_incompatible_typeerror chartC4 (.string "a") (.number 1)).1
      (.str "a") (.num 1) rfl rfl rfl |>.1,
   ((ordering_incompatible_typeerror chartC4 (.number 2) (.number 3)).2.2.2
      2 3 rfl rfl).1⟩

/-! ## C7: empty formula is a distinct parser error -/

/-- C7: for every token stream consisting only of the EOF token (as
produced by tokenizing the empty string, whitespace, or a comment-only
line), `parse` raises the dedicated empty-formula `ParserError`, which is a
different error from the generic unexpected-token one, and never returns an
AST. -/
theorem empty_formula_distinct_error :
    (∀ t : Token, t.type = .EOF → runParser [t] = .error .emptyFormula) ∧
    tokenize "" = .ok [⟨.EOF, "", 1, 0⟩] ∧
    tokenize "   " = .ok [⟨.EOF, "", 1, 3⟩] ∧
    tokenize "# only a comment" = .ok [⟨.EOF, "", 1, 17⟩] ∧
    (∀ t : Token, ParserError.emptyFormula ≠ .unexpectedToken t) := by
  refine ⟨?_, rfl, rfl, rfl, fun t h => ParserError.noConfusion h⟩
  intro t ht
  simp [runParser, ht]

/-- C7 witness: the EOF-only stream produced by tokenizing the empty
string is rejected with the empty-formula error. -/
theorem empty_formula_distinct_error_witness :
    runParser [⟨.EOF, "", 1, 0⟩] = .error .emptyFormula :=
  empty_formula_distinct_error.1 ⟨.EOF, "", 1, 0⟩ rfl

/-! ## C8: keyword recognition is case-sensitive and exact -/

/-- C8: scanning an identifier lexeme looks its text up in the fixed
keyword table: exactly the nine strings AND, OR, NOT, IN, True, False,
planets, aspects, houses map to their keyword/BOOLEAN/aggregator token
kinds, and every other `[A-Za-z_][A-Za-z0-9_]*` text becomes an
IDENTIFIER; in particular `planets` is the PLANETS keyword while `Planets`
is an ordinary identifier. -/
theorem keyword_recognition :
    (∀ s : String, isIdentName s = true →
      tokenize s = .ok [⟨keywordLookup s, s, 1, 0⟩, ⟨.EOF, "", 1, s.length⟩]) ∧
    (keywordLookup "AND" = .AND ∧ keywordLookup "OR" = .OR ∧
     keywordLookup "NOT" = .NOT ∧ keywordLookup "IN" = .IN ∧
     keywordLookup "True" = .BOOLEAN ∧ keywordLookup "False" = .BOOLEAN ∧
     keywordLookup "planets" = .PLANETS ∧ keywordLookup "aspects" = .ASPECTS ∧
     keywordLookup "houses" = .HOUSES) ∧
    (∀ s : String, s ∉ keywordStrings → keywordLookup s = .IDENTIFIER) ∧
    tokenize "planets" = .ok [⟨.PLANETS, "planets", 1, 0⟩, ⟨.EOF, "", 1, 7⟩] ∧
    tokenize "Planets" = .ok [⟨.IDENTIFIER, "Planets", 1, 0⟩, ⟨.EOF, "", 1, 7⟩] := by
  refine ⟨tokenize_single_identifier,
    ⟨rfl, rfl, rfl, rfl, rfl, rfl, rfl, rfl, rfl⟩, ?_, rfl, rfl⟩
  intro s hs
  simp only [keywordStrings, List.mem_cons, List.not_mem_nil, or_false, not_or] at hs
  obtain ⟨h1, h2, h3, h4, h5, h6, h7, h8, h9⟩ := hs
  simp [keywordLookup, h1, h2, h3, h4, h5, h6, h7, h8, h9]

/-- C8 witness: a non-keyword lexeme scans as IDENTIFIER, a keyword-free
name maps to IDENTIFIER in the table. -/
theorem keyword_recognition_witness :
    tokenize "Zeus_2" = .ok [⟨.IDENTIFIER, "Zeus_2", 1, 0⟩, ⟨.EOF, "", 1, 6⟩] ∧
    keywordLookup "Capricorn" = .IDENTIFIER :=
  ⟨keyword_recognition.1 "Zeus_2" (by decide),
   keyword_recognition.2.2.1 "Capricorn" (by decide)⟩

/-! ## C2: property resolution order -/

/-- C2: a `Property` node whose object evaluates to string `X` with
property name `Y` resolves in this order: (1) `chart.planets[X][Y]` when
`X` is a planet, raising an `EvaluationError` that lists the known property
names when `Y` is absent from that planet; (2) otherwise `chart.houses
[int(X)][Y]` when `X` parses as an integer present in `houses`;
(3) otherwise an `EvaluationError` naming the unknown object and listing
the known planet names.  In particular `evaluate("Sun.Sign", chart)` equals
`chart.planets["Sun"]["Sign"]` whenever present. -/
theorem property_resolution_order (chart : ChartData) (X Y : String) :
    (∀ ps pd v, chart.planets = some ps → ps.lookup X = some pd →
      pd.lookup Y = some v →
      evalNode chart (.property (.ident X) Y) = .ok v) ∧
    (∀ ps pd, chart.planets = some ps → ps.lookup X = some pd →
      pd.lookup Y = none →
      evalNode chart (.property (.ident X) Y) =
        .error (.err (.planetPropertyNotFound Y X (pd.map Prod.fst)))) ∧
    (∀ hs hd n v, (∀ ps, chart.planets = some ps → ps.lookup X = none) →
      chart.houses = some hs → pyIntOfString X = some n →
      hs.lookup n = some hd → hd.lookup Y = some v →
      evalNode chart (.property (.ident X) Y) = .ok v) ∧
    ((∀ ps, chart.planets = some ps → ps.lookup X = none) →
      pyIntOfString X = none →
      evalNode chart (.property (.ident X) Y) =
        .error (.err (.objectNotFound X (planetNames chart)))) ∧
    (∀ ps pd v, chart.planets = some ps → ps.lookup "Sun" = some pd →
      pd.lookup "Sign" = some v → evaluate "Sun.Sign" chart = .ok v) := by
  refine ⟨?_, ?_, ?_, ?_, ?_⟩
  · intro ps pd v hps hpd hv
    simp [evalNode, hps, hpd, hv]
  · intro ps pd hps hpd hv
    simp [evalNode, hps, hpd, hv]
  · intro hs hd n v hnone hhs hint hhd hv
    cases hp : chart.planets with
    | none => simp [evalNode, hp, evalPropertyHouses, hhs, hint, hhd, hv]
    | some ps => simp [evalNode, hp, hnone ps hp, evalPropertyHouses, hhs, hint, hhd, hv]
  · intro hnone hint
    cases hp : chart.planets with
    | none =>
      cases hh : chart.houses with
      | none => simp [evalNode, hp, evalPropertyHouses, hh, evalObjectNotFound]
      | some hs => simp [evalNode, hp, evalPropertyHouses, hh, hint, evalObjectNotFound]
    | some ps =>
      cases hh : chart.houses with
      | none => simp [evalNode, hp, hnone ps hp, evalPropertyHouses, hh, evalObjectNotFound]
      | some hs => simp [evalNode, hp, hnone ps hp, evalPropertyHouses, hh, hint, evalObjectNotFound]
  · intro ps pd v hps hpd hv
    have hparse : parse "Sun.Sign" = .ok (.property (.ident "Sun") "Sign") := rfl
    simp only [evaluate, hparse]
    simp [evalNode, hps, hpd, hv]

/-- C2 witness: on a chart with `Sun.Sign = "Capricorn"` and house 1, the
four resolution outcomes at concrete inputs. -/
theorem property_resolution_order_witness :
    evalNode chartC2 (.property (.ident "Sun") "Sign") = .ok (.str "Capricorn") ∧
    evalNode chartC2 (.property (.ident "Sun") "Speed") =
      .error (.err (.planetPropertyNotFound "Speed" "Sun" ["Sign"])) ∧
    evalNode chartC2 (.property (.ident "1") "Ruler") = .ok (.str "Mars") ∧
    evalNode chartC2 (.property (.ident "Jupiter2") "Sign") =
      .error (.err (.objectNotFound "Jupiter2" ["Sun"])) ∧
    evaluate "Sun.Sign" chartC2 = .ok (.str "Capricorn") :=
  ⟨(property_resolution_order chartC2 "Sun" "Sign").1 _ _ _ rfl rfl rfl,
   (property_resolution_order chartC2 "Sun" "Speed").2.1 _ _ rfl rfl rfl,
   (property_resolution_order chartC2 "1" "Ruler").2.2.1 _ _ 1 _
     (fun ps hps => by
       have h := Option.some.inj hps
       rw [← h]
       rfl) rfl rfl rfl rfl,
   (property_resolution_order chartC2 "Jupiter2" "Sign").2.2.2.1
     (fun ps hps => by
       have h := Option.some.inj hps
       rw [← h]
       rfl) rfl,
   (property_resolution_order chartC2 "Sun" "Sign").2.2.2.2 _ _ _ rfl rfl rfl⟩

/-! ## C5: aggregator expansion -/

/-- C5: an `Aggregator` node over `planets`/`houses`/`aspects` with
property `P` iterates every entry of that chart section in insertion order
and returns the list of `entry[P]`; an entry lacking `P` raises an
`EvaluationError` at that entry, with nothing after it inspected and no
partial list returned; e.g. `Rulership IN planets.Dignity` is `True` on
`{planets: {Sun: {Dignity: Rulership}, Moon: {Dignity: Neutral}}}`. -/
theorem aggregator_expansion (chart : ChartData) (P : String) :
    (∀ ps, chart.planets = some ps → (∀ e ∈ ps, (e.2.lookup P).isSome = true) →
      evalNode chart (.aggregator "planets" P) =
        .ok (.list (ps.map fun e => (e.2.lookup P).getD (.bool false)))) ∧
    (∀ hs, chart.houses = some hs → (∀ e ∈ hs, (e.2.lookup P).isSome = true) →
      evalNode chart (.aggregator "houses" P) =
        .ok (.list (hs.map fun e => (e.2.lookup P).getD (.bool false)))) ∧
    (∀ asps, chart.aspects = some asps → (∀ e ∈ asps, (e.lookup P).isSome = true) →
      evalNode chart (.aggregator "aspects" P) =
        .ok (.list (asps.map fun e => (e.lookup P).getD (.bool false)))) ∧
    (∀ pre post name d, chart.planets = some (pre ++ (name, d) :: post) →
      (∀ e ∈ pre, (e.2.lookup P).isSome = true) → d.lookup P = none →
      evalNode chart (.aggregator "planets" P) =
        .error (.err (.aggPlanetPropertyMissing P name))) ∧
    evaluate "Rulership IN planets.Dignity" chartC5 = .ok (.bool true) := by
  refine ⟨?_, ?_, ?_, ?_, rfl⟩
  · intro ps hps hall
    simp [evalNode, hps, collectPlanetProps_all P ps hall]
  · intro hs hhs hall
    simp [evalNode, hhs, collectHouseProps_all P hs hall]
  · intro asps hasps hall
    simp [evalNode, hasps, collectAspectProps_all P asps hall]
  · intro pre post name d hps hall hd
    simp [evalNode, hps, collectPlanetProps_failfast P name pre post d hall hd]

/-- C5 witness: the planets aggregator expands the example chart in order,
and fails fast on the first entry lacking the property even though a later
entry has it. -/
theorem aggregator_expansion_witness :
    evalNode chartC5 (.aggregator "planets" "Dignity") =
      .ok (.list [.str "Rulership", .str "Neutral"]) ∧
    evalNode chartC5bad (.aggregator "planets" "Dignity") =
      .error (.err (.aggPlanetPropertyMissing "Dignity" "Moon")) :=
  ⟨(aggregator_expansion chartC5 "Dignity").1 _ rfl (by decide),
   (aggregator_expansion chartC5bad "Dignity").2.2.2.1
     [("Sun", [("Dignity", .str "Rulership")])]
     [("Mars", [("Dignity", .str "Detriment")])]
     "Moon" [("House", .num 2)] rfl (by decide) rfl⟩

/-! ## C6: operator precedence NOT > AND > OR -/

/-- C6: the parser binds NOT tightest and OR loosest: for all identifiers
`a`, `b`, `c` (at any source positions), `a OR b AND c` parses as
`BinaryOp(OR, a, BinaryOp(AND, b, c))`, NOT applies only to the
immediately following factor (`NOT a AND b` parses as
`BinaryOp(AND, UnaryOp(NOT, a), b)`), and
`NOT Sun.Retrograde AND Moon.Retrograde` evaluates to `True` on a chart
with `Sun.Retrograde = False` and `Moon.Retrograde = True`. -/
theorem precedence_not_and_or :
    (∀ (a b c : String) (l1 c1 l2 c2 l3 c3 l4 c4 l5 c5 l6 c6 : Nat),
      runParser [⟨.IDENTIFIER, a, l1, c1⟩, ⟨.OR, "OR", l2, c2⟩,
                 ⟨.IDENTIFIER, b, l3, c3⟩, ⟨.AND, "AND", l4, c4⟩,
                 ⟨.IDENTIFIER, c, l5, c5⟩, ⟨.EOF, "", l6, c6⟩] =
        .ok (.binaryOp "OR" (.ident a)
              (.binaryOp "AND" (.ident b) (.ident c)))) ∧
    (∀ (a b : String) (l1 c1 l2 c2 l3 c3 l4 c4 l5 c5 : Nat),
      runParser [⟨.NOT, "NOT", l1, c1⟩, ⟨.IDENTIFIER, a, l2, c2⟩,
                 ⟨.AND, "AND", l3, c3⟩, ⟨.IDENTIFIER, b, l4, c4⟩,
                 ⟨.EOF, "", l5, c5⟩] =
        .ok (.binaryOp "AND" (.unaryOp "NOT" (.ident a)) (.ident b))) ∧
    evaluate "NOT Sun.Retrograde AND Moon.Retrograde" chartC6 = .ok (.bool true) := by
  exact ⟨fun a b c _ _ _ _ _ _ _ _ _ _ _ _ => rfl,
         fun a b _ _ _ _ _ _ _ _ _ _ => rfl, rfl⟩

end AstroDsl
